import Mathlib

/-!
Verification development for the llm-chess-arena repository.

The development shallowly embeds the Python sources:

* `ratings.py` — the Elo ratings engine (`get_k_factor`, `update_elo`,
  `RatingsTable.get` / `set` / `get_stats` / `apply_result`);
* `prompts.py` — the `RetryReason` enumeration and `build_retry_message`;
* `match.py` — `ChessGame.extract_move_from_response`, `get_player_move`,
  `determine_game_result`, `play_next_move` and their effect on game state;
* `app.py` — the `play_move` request handler (the single-step entry point),
  including its forwarding of terminal results to the ratings engine.

Modelling conventions:

* Python dictionaries with string keys are association lists with
  insertion-order append on fresh keys, exactly mirroring dict assignment.
* Python numeric values (`float` ratings, times, costs) are embedded as
  rationals.  The transcendental expected-score computation
  `1 / (1 + 10 ** ((rb - ra) / 400))` is the one operation with no exact
  discrete counterpart, so the functions that use it take the expected-score
  function `expS` as an explicit parameter and apply it exactly where the
  source does; none of the verified claims depends on its numeric value.
* Python exceptions that the embedded code can raise (`AttributeError` from
  referencing a nonexistent `RetryReason` member, `TypeError` from
  concatenating a string with `None`) are modelled with an `Except` result.
* The python-chess library is the external Rules Oracle: a board is embedded
  as the record of answers the oracle gives for the current position, and a
  whole game of oracle answers is a function from the move stack to that
  record.
-/

namespace Arena

/-- Lookup in a Python-style dictionary embedded as an association list:
first (and by the unique-key discipline of `dict`, only) binding wins. -/
def dictFind {α : Type} : List (String × α) → String → Option α
  | [], _ => none
  | (k, v) :: rest, key => if k = key then some v else dictFind rest key

/-- In-place update of the binding of `key` (`d[key] = f(d[key])`); no-op when
the key is absent. -/
def dictUpdate {α : Type} : List (String × α) → String → (α → α) → List (String × α)
  | [], _, _ => []
  | (k, v) :: rest, key, f =>
      if k = key then (k, f v) :: rest else (k, v) :: dictUpdate rest key f

theorem dictFind_dictUpdate_self {α : Type} (d : List (String × α)) (key : String) (f : α → α) :
    dictFind (dictUpdate d key f) key = (dictFind d key).map f := by
  induction d with
  | nil => rfl
  | cons hd rest ih =>
      obtain ⟨k, v⟩ := hd
      by_cases h : k = key <;> simp [dictFind, dictUpdate, h, ih]

theorem dictFind_dictUpdate_ne {α : Type} (d : List (String × α)) (key key' : String)
    (f : α → α) (h : key ≠ key') :
    dictFind (dictUpdate d key f) key' = dictFind d key' := by
  induction d with
  | nil => rfl
  | cons hd rest ih =>
      obtain ⟨k, v⟩ := hd
      by_cases hk : k = key
      · subst hk
        simp [dictFind, dictUpdate, h]
      · by_cases hk' : k = key' <;> simp [dictFind, dictUpdate, hk, hk', ih, Ne.symm h]

theorem dictFind_append {α : Type} (d₁ d₂ : List (String × α)) (key : String) :
    dictFind (d₁ ++ d₂) key =
      match dictFind d₁ key with
      | some v => some v
      | none => dictFind d₂ key := by
  induction d₁ with
  | nil => simp [dictFind]
  | cons hd rest ih =>
      obtain ⟨k, v⟩ := hd
      by_cases h : k = key <;> simp [dictFind, h, ih]

/-- Per-player record stored in the ratings table (`ratings.py`, the value
shape written by `RatingsTable.set`). -/
structure PlayerData where
  rating : ℚ
  wins : Nat
  draws : Nat
  losses : Nat
  moves : Nat
  time : ℚ
  cost : ℚ
  win_reasons : List (String × Nat)
  loss_reasons : List (String × Nat)
  deriving DecidableEq

/-- Fresh record inserted by `RatingsTable.set` for an unknown player. -/
def freshPlayerData (rating : ℚ) : PlayerData :=
  ⟨rating, 0, 0, 0, 0, 0, 0, [], []⟩

/-- Result shape of `RatingsTable.get_stats`. -/
structure PlayerStats where
  wins : Nat
  draws : Nat
  losses : Nat
  total : Nat
  moves : Nat
  time : ℚ
  cost : ℚ
  deriving DecidableEq

/-- Projection of a stored record to the statistics view used by
`get_stats` when the player is present. -/
def statsOf (p : PlayerData) : PlayerStats :=
  ⟨p.wins, p.draws, p.losses, p.wins + p.draws + p.losses, p.moves, p.time, p.cost⟩

/-- The in-memory ratings table of `ratings.py`. -/
structure RatingsTable where
  default_rating : ℚ
  ratings : List (String × PlayerData)
  deriving DecidableEq

/-- K-factor step function (`get_k_factor` in `ratings.py`); the integer
result is embedded as a rational because it feeds the rating arithmetic. -/
def get_k_factor (total_games : Nat) : ℚ :=
  if total_games < 2 then 128
  else if total_games < 5 then 64
  else if total_games < 10 then 32
  else 16

/-- One Elo update (`update_elo` in `ratings.py`); `expS` stands for the
floating-point `expected_score` computation, applied exactly as in the
source. -/
def update_elo (expS : ℚ → ℚ → ℚ) (rating_a rating_b score_a k_a k_b : ℚ) : ℚ × ℚ :=
  let exp_a := expS rating_a rating_b
  let exp_b := expS rating_b rating_a
  (rating_a + k_a * (score_a - exp_a), rating_b + k_b * ((1 - score_a) - exp_b))

namespace RatingsTable

/-- Embedding of `RatingsTable.get`: a stored record always carries its
`rating` field (every record is written by `set`), missing players read the
default rating. -/
def get (t : RatingsTable) (player_id : String) : ℚ :=
  match dictFind t.ratings player_id with
  | none => t.default_rating
  | some p => p.rating

/-- Embedding of `RatingsTable.set`: insert a fully zeroed record for an
unknown player, otherwise overwrite only the rating field. -/
def set (t : RatingsTable) (player_id : String) (rating : ℚ) : RatingsTable :=
  match dictFind t.ratings player_id with
  | none => { t with ratings := t.ratings ++ [(player_id, freshPlayerData rating)] }
  | some _ =>
      { t with ratings := dictUpdate t.ratings player_id (fun p => { p with rating := rating }) }

/-- Embedding of `RatingsTable.get_stats`. -/
def get_stats (t : RatingsTable) (player_id : String) : PlayerStats :=
  match dictFind t.ratings player_id with
  | none => ⟨0, 0, 0, 0, 0, 0, 0⟩
  | some p => statsOf p

/-- State-passing embedding of the read-only method `get`: the body of the
source method performs only dictionary reads, so the table comes back as the
call leaves it — unchanged. -/
def getS (t : RatingsTable) (player_id : String) : ℚ × RatingsTable :=
  (t.get player_id, t)

/-- State-passing embedding of the read-only method `get_stats`. -/
def get_statsS (t : RatingsTable) (player_id : String) : PlayerStats × RatingsTable :=
  (t.get_stats player_id, t)

end RatingsTable

theorem get_set_self (t : RatingsTable) (k : String) (r : ℚ) :
    (t.set k r).get k = r := by
  unfold RatingsTable.set RatingsTable.get
  cases h : dictFind t.ratings k with
  | none => simp [dictFind_append, h, dictFind, freshPlayerData]
  | some p => simp [dictFind_dictUpdate_self, h]

theorem get_set_ne (t : RatingsTable) (k k' : String) (r : ℚ) (h : k ≠ k') :
    (t.set k r).get k' = t.get k' := by
  unfold RatingsTable.set RatingsTable.get
  cases hk : dictFind t.ratings k with
  | none =>
      dsimp only
      rw [dictFind_append]
      cases h' : dictFind t.ratings k' <;> simp [h', dictFind, h]
  | some p => simp [dictFind_dictUpdate_ne _ _ _ _ h]

theorem dictFind_set_self (t : RatingsTable) (k : String) (r : ℚ) :
    ∃ p, dictFind (t.set k r).ratings k = some p := by
  unfold RatingsTable.set
  cases h : dictFind t.ratings k with
  | none =>
      refine ⟨freshPlayerData r, ?_⟩
      simp [dictFind_append, h, dictFind]
  | some p =>
      refine ⟨{ p with rating := r }, ?_⟩
      simp [dictFind_dictUpdate_self, h]

theorem get_stats_set (t : RatingsTable) (k k' : String) (r : ℚ) :
    (t.set k r).get_stats k' = t.get_stats k' := by
  unfold RatingsTable.set RatingsTable.get_stats
  cases hk : dictFind t.ratings k with
  | none =>
      dsimp only
      rw [dictFind_append]
      cases h' : dictFind t.ratings k' with
      | some p => rfl
      | none =>
          by_cases hkk : k = k'
          · subst hkk
            simp [dictFind, statsOf, freshPlayerData]
          · simp [dictFind, hkk]
  | some p =>
      by_cases hkk : k = k'
      · subst hkk
        simp [dictFind_dictUpdate_self, hk, statsOf]
      · simp [dictFind_dictUpdate_ne _ _ _ _ hkk]

/-- One dictionary item mutation `self.ratings[key] = f(self.ratings[key])`
lifted to the table. -/
def tableUpdate (t : RatingsTable) (key : String) (f : PlayerData → PlayerData) : RatingsTable :=
  { t with ratings := dictUpdate t.ratings key f }

theorem get_tableUpdate_of_rating_eq (t : RatingsTable) (key key' : String)
    (f : PlayerData → PlayerData) (hf : ∀ p, (f p).rating = p.rating) :
    (tableUpdate t key f).get key' = t.get key' := by
  unfold tableUpdate RatingsTable.get
  by_cases h : key = key'
  · subst h
    rw [dictFind_dictUpdate_self]
    cases dictFind t.ratings key <;> simp [hf]
  · rw [dictFind_dictUpdate_ne _ _ _ _ h]

theorem get_stats_tableUpdate_ne (t : RatingsTable) (key key' : String)
    (f : PlayerData → PlayerData) (h : key ≠ key') :
    (tableUpdate t key f).get_stats key' = t.get_stats key' := by
  unfold tableUpdate RatingsTable.get_stats
  rw [dictFind_dictUpdate_ne _ _ _ _ h]

theorem dictFind_tableUpdate_self (t : RatingsTable) (key : String)
    (f : PlayerData → PlayerData) :
    dictFind (tableUpdate t key f).ratings key = (dictFind t.ratings key).map f := by
  unfold tableUpdate
  exact dictFind_dictUpdate_self _ _ _

theorem dictFind_tableUpdate_ne (t : RatingsTable) (key key' : String)
    (f : PlayerData → PlayerData) (h : key ≠ key') :
    dictFind (tableUpdate t key f).ratings key' = dictFind t.ratings key' := by
  unfold tableUpdate
  exact dictFind_dictUpdate_ne _ _ _ _ h

/-- Argument record of `RatingsTable.apply_result`; `termination = none`
models the Python default `termination=None`. -/
structure ApplyArgs where
  white_id : String
  black_id : String
  result : String
  white_moves : Nat
  black_moves : Nat
  white_time : ℚ
  black_time : ℚ
  white_cost : ℚ
  black_cost : ℚ
  termination : Option String
  deriving DecidableEq

/-- The player-seeding prelude of `apply_result` (`if white_id not in
self.ratings: self.set(...)`, then the same for black on the updated table). -/
def ensurePlayers (t : RatingsTable) (white_id black_id : String) : RatingsTable :=
  let t₁ := if (dictFind t.ratings white_id).isNone then t.set white_id t.default_rating else t
  if (dictFind t₁.ratings black_id).isNone then t₁.set black_id t₁.default_rating else t₁

/-- Histogram bump `d[key] = d.get(key, 0) + 1` on a reason map. -/
def bumpReason (d : List (String × Nat)) (key : String) : List (String × Nat) :=
  match dictFind d key with
  | some n => dictUpdate d key (fun _ => n + 1)
  | none => d ++ [(key, 1)]

/-- Embedding of `RatingsTable.apply_result`.  The returned Boolean reports
whether `self.save()` (persistence of the table) was reached.  The source's
"ensure reason maps exist" loop is the identity here because embedded records
always carry both histogram fields (every record is created by `set`). -/
def apply_result (expS : ℚ → ℚ → ℚ) (t : RatingsTable) (a : ApplyArgs) :
    RatingsTable × Bool :=
  if a.termination = some "No response from the model." then (t, false)
  else if a.white_moves + a.black_moves ≤ 1 then (t, false)
  else
    let t₁ := ensurePlayers t a.white_id a.black_id
    let white_games := (t₁.get_stats a.white_id).total
    let black_games := (t₁.get_stats a.black_id).total
    let white_rating := t₁.get a.white_id
    let black_rating := t₁.get a.black_id
    let branch :=
      if a.result = "1-0" then
        let t₂ := tableUpdate t₁ a.white_id (fun p => { p with wins := p.wins + 1 })
        let t₂ := tableUpdate t₂ a.black_id (fun p => { p with losses := p.losses + 1 })
        let t₂ :=
          match a.termination with
          | some tm =>
              if tm ≠ "" then
                let t₃ := tableUpdate t₂ a.white_id
                  (fun p => { p with win_reasons := bumpReason p.win_reasons tm })
                tableUpdate t₃ a.black_id
                  (fun p => { p with loss_reasons := bumpReason p.loss_reasons tm })
              else t₂
          | none => t₂
        (t₂, (1 : ℚ))
      else if a.result = "0-1" then
        let t₂ := tableUpdate t₁ a.black_id (fun p => { p with wins := p.wins + 1 })
        let t₂ := tableUpdate t₂ a.white_id (fun p => { p with losses := p.losses + 1 })
        let t₂ :=
          match a.termination with
          | some tm =>
              if tm ≠ "" then
                let t₃ := tableUpdate t₂ a.black_id
                  (fun p => { p with win_reasons := bumpReason p.win_reasons tm })
                tableUpdate t₃ a.white_id
                  (fun p => { p with loss_reasons := bumpReason p.loss_reasons tm })
              else t₂
          | none => t₂
        (t₂, (0 : ℚ))
      else
        let t₂ := tableUpdate t₁ a.white_id (fun p => { p with draws := p.draws + 1 })
        let t₂ := tableUpdate t₂ a.black_id (fun p => { p with draws := p.draws + 1 })
        (t₂, (1 / 2 : ℚ))
    let t₄ := branch.1
    let score_white := branch.2
    let t₄ := tableUpdate t₄ a.white_id (fun p => { p with moves := p.moves + a.white_moves })
    let t₄ := tableUpdate t₄ a.white_id (fun p => { p with time := p.time + a.white_time })
    let t₄ := tableUpdate t₄ a.white_id (fun p => { p with cost := p.cost + a.white_cost })
    let t₄ := tableUpdate t₄ a.black_id (fun p => { p with moves := p.moves + a.black_moves })
    let t₄ := tableUpdate t₄ a.black_id (fun p => { p with time := p.time + a.black_time })
    let t₄ := tableUpdate t₄ a.black_id (fun p => { p with cost := p.cost + a.black_cost })
    let k_white := get_k_factor white_games
    let k_black := get_k_factor black_games
    let updated := update_elo expS white_rating black_rating score_white k_white k_black
    let t₅ := t₄.set a.white_id updated.1
    let t₆ := t₅.set a.black_id updated.2
    (t₆, true)

/-- Score credited to White by `apply_result`: the source's `if`/`elif`/`else`
chain on the result string. -/
def scoreW (result : String) : ℚ :=
  if result = "1-0" then 1 else if result = "0-1" then 0 else 1 / 2

theorem dictFind_set_ne (t : RatingsTable) (k k' : String) (r : ℚ) (h : k ≠ k') :
    dictFind (t.set k r).ratings k' = dictFind t.ratings k' := by
  unfold RatingsTable.set
  cases hk : dictFind t.ratings k with
  | none =>
      dsimp only
      rw [dictFind_append]
      cases h' : dictFind t.ratings k' <;> simp [h', dictFind, h]
  | some p => exact dictFind_dictUpdate_ne _ _ _ _ h

theorem exists_some_of_not_isNone {α : Type} {o : Option α} (h : ¬ o.isNone = true) :
    ∃ x, o = some x := by
  cases o with
  | none => exact absurd rfl h
  | some x => exact ⟨x, rfl⟩

theorem ensurePlayers_present (t : RatingsTable) (w b : String) (hne : w ≠ b) :
    (∃ pw, dictFind (ensurePlayers t w b).ratings w = some pw)
    ∧ ∃ pb, dictFind (ensurePlayers t w b).ratings b = some pb := by
  unfold ensurePlayers
  by_cases hw : (dictFind t.ratings w).isNone
  · rw [if_pos hw]
    obtain ⟨pw, hpw⟩ := dictFind_set_self t w t.default_rating
    by_cases hb : (dictFind (t.set w t.default_rating).ratings b).isNone
    · rw [if_pos hb]
      refine ⟨⟨pw, ?_⟩, dictFind_set_self _ _ _⟩
      rw [dictFind_set_ne _ b w _ (Ne.symm hne)]
      exact hpw
    · rw [if_neg hb]
      exact ⟨⟨pw, hpw⟩, exists_some_of_not_isNone hb⟩
  · rw [if_neg hw]
    obtain ⟨pw, hpw⟩ := exists_some_of_not_isNone hw
    by_cases hb : (dictFind t.ratings b).isNone
    · rw [if_pos hb]
      refine ⟨⟨pw, ?_⟩, dictFind_set_self _ _ _⟩
      rw [dictFind_set_ne _ b w _ (Ne.symm hne)]
      exact hpw
    · rw [if_neg hb]
      exact ⟨⟨pw, hpw⟩, exists_some_of_not_isNone hb⟩

/-- C5: for each side independently, the K-factor used by `apply_result` is
the step function `get_k_factor` of that side's own prior completed-match
count (wins + draws + losses as read by `get_stats` after player seeding but
before this match's counters are incremented), with the boundary values
128/64/64/32/32/16 at prior counts 1/2/4/5/9/10 (and 128 at 0, 16 at 100). -/
theorem spec_c5_k_factor (expS : ℚ → ℚ → ℚ) (t : RatingsTable) (a : ApplyArgs)
    (hterm : ¬ a.termination = some "No response from the model.")
    (hplies : ¬ a.white_moves + a.black_moves ≤ 1)
    (hne : a.white_id ≠ a.black_id) :
    (apply_result expS t a).1.get a.white_id
        = (ensurePlayers t a.white_id a.black_id).get a.white_id
          + get_k_factor ((ensurePlayers t a.white_id a.black_id).get_stats a.white_id).total
            * (scoreW a.result
              - expS ((ensurePlayers t a.white_id a.black_id).get a.white_id)
                  ((ensurePlayers t a.white_id a.black_id).get a.black_id))
    ∧ (apply_result expS t a).1.get a.black_id
        = (ensurePlayers t a.white_id a.black_id).get a.black_id
          + get_k_factor ((ensurePlayers t a.white_id a.black_id).get_stats a.black_id).total
            * ((1 - scoreW a.result)
              - expS ((ensurePlayers t a.white_id a.black_id).get a.black_id)
                  ((ensurePlayers t a.white_id a.black_id).get a.white_id))
    ∧ get_k_factor 0 = 128 ∧ get_k_factor 1 = 128 ∧ get_k_factor 2 = 64
    ∧ get_k_factor 4 = 64 ∧ get_k_factor 5 = 32 ∧ get_k_factor 9 = 32
    ∧ get_k_factor 10 = 16 ∧ get_k_factor 100 = 16 := by
  refine ⟨?_, ?_, by norm_num [get_k_factor], by norm_num [get_k_factor],
    by norm_num [get_k_factor], by norm_num [get_k_factor], by norm_num [get_k_factor],
    by norm_num [get_k_factor], by norm_num [get_k_factor], by norm_num [get_k_factor]⟩
  · by_cases h1 : a.result = "1-0"
    · simp only [apply_result, update_elo, scoreW, if_neg hterm, if_neg hplies, h1, if_true,
        ite_true]
      rw [get_set_ne _ _ _ _ (Ne.symm hne), get_set_self]
    · by_cases h2 : a.result = "0-1"
      · simp only [apply_result, update_elo, scoreW, if_neg hterm, if_neg hplies, h1, h2,
          String.reduceEq, if_true, ite_true, if_false, ite_false]
        rw [get_set_ne _ _ _ _ (Ne.symm hne), get_set_self]
      · simp only [apply_result, update_elo, scoreW, if_neg hterm, if_neg hplies, h1, h2,
          if_false, ite_false]
        rw [get_set_ne _ _ _ _ (Ne.symm hne), get_set_self]
  · by_cases h1 : a.result = "1-0"
    · simp only [apply_result, update_elo, scoreW, if_neg hterm, if_neg hplies, h1, if_true,
        ite_true]
      rw [get_set_self]
    · by_cases h2 : a.result = "0-1"
      · simp only [apply_result, update_elo, scoreW, if_neg hterm, if_neg hplies, h1, h2,
          String.reduceEq, if_true, ite_true, if_false, ite_false]
        rw [get_set_self]
      · simp only [apply_result, update_elo, scoreW, if_neg hterm, if_neg hplies, h1, h2,
          if_false, ite_false]
        rw [get_set_self]

/-- Witness for C5 at concrete inputs: two fresh players, White wins; all
three hypotheses are discharged by `decide` and the theorem is applied at
the concrete table, arguments and expected-score function ½. -/
theorem spec_c5_k_factor_witness :
    (apply_result (fun _ _ => (1 : ℚ) / 2) ⟨1200, []⟩
          ⟨"A", "B", "1-0", 5, 5, 0, 0, 0, 0, some "checkmate"⟩).1.get "A"
        = (ensurePlayers ⟨1200, []⟩ "A" "B").get "A"
          + get_k_factor ((ensurePlayers (⟨1200, []⟩ : RatingsTable) "A" "B").get_stats "A").total
            * (scoreW "1-0" - (1 : ℚ) / 2)
    ∧ get_k_factor ((ensurePlayers (⟨1200, []⟩ : RatingsTable) "A" "B").get_stats "A").total
        = 128 := by
  have h := spec_c5_k_factor (fun _ _ => (1 : ℚ) / 2) ⟨1200, []⟩
    ⟨"A", "B", "1-0", 5, 5, 0, 0, 0, 0, some "checkmate"⟩
    (by decide) (by decide) (by decide)
  exact ⟨h.1, by decide⟩

/-- C3: `apply_result` is a guarded no-op — when the termination tag is the
transport-failure sentence, or when the two sides' ply counts sum to at most
one, the table is returned untouched and nothing is persisted. -/
theorem spec_c3_guard_noop (expS : ℚ → ℚ → ℚ) (t : RatingsTable) (a : ApplyArgs)
    (h : a.termination = some "No response from the model."
      ∨ a.white_moves + a.black_moves ≤ 1) :
    apply_result expS t a = (t, false) := by
  unfold apply_result
  rcases h with h | h
  · simp [h]
  · by_cases hterm : a.termination = some "No response from the model."
    · simp [hterm]
    · simp [hterm, h]

/-- Witness for C3: the transport-failure tag with many plies, and the
degenerate ply count `white=1, black=0`, are both no-ops on a sample table. -/
theorem spec_c3_guard_noop_witness :
    apply_result (fun _ _ => (1 : ℚ) / 2) ⟨1200, []⟩
        ⟨"A", "B", "1-0", 30, 30, 0, 0, 0, 0, some "No response from the model."⟩
      = (⟨1200, []⟩, false)
    ∧ apply_result (fun _ _ => (1 : ℚ) / 2) ⟨1200, []⟩
        ⟨"A", "B", "1-0", 1, 0, 0, 0, 0, 0, none⟩
      = (⟨1200, []⟩, false) :=
  ⟨spec_c3_guard_noop _ _ _ (Or.inl rfl), spec_c3_guard_noop _ _ _ (Or.inr (by decide))⟩

/-- C10: the read operations `get` and `get_stats` never mutate the table —
their state-passing embeddings return it unchanged — and an identity with no
entry reads the default rating 1200 and all-zero statistics without any
entry being inserted. -/
theorem spec_c10_reads_pure (t : RatingsTable) (player_id : String)
    (hnone : dictFind t.ratings player_id = none)
    (hdef : t.default_rating = 1200) :
    t.getS player_id = (1200, t)
    ∧ t.get_statsS player_id = (⟨0, 0, 0, 0, 0, 0, 0⟩, t) := by
  constructor
  · simp [RatingsTable.getS, RatingsTable.get, hnone, hdef]
  · simp [RatingsTable.get_statsS, RatingsTable.get_stats, hnone]

/-- The `RetryReason` enumeration of `prompts.py`.  Note that `match.py`
additionally references members named `MISSING_REASONING_KEY`,
`MISSING_RATIONALE_KEY` and `MISSING_MOVE_KEY` which do not exist here —
accessing them raises `AttributeError` at run time. -/
inductive RetryReason where
  | EMPTY_RESPONSE
  | INVALID_JSON
  | ILLEGAL_MOVE
  | ILLEGAL_MOVE_WRONG_PIECE
  | MISSING_CHOICE_KEY
  | MISSING_BREAKDOWN_KEY
  | MISSING_ANALYSIS_KEY
  | INVALID_UCI_FORMAT
  deriving DecidableEq

/-- The `.value` strings of the `RetryReason` members. -/
def RetryReason.value : RetryReason → String
  | .EMPTY_RESPONSE => "No response from the model."
  | .INVALID_JSON => "The model didn\x27t return a valid response."
  | .ILLEGAL_MOVE => "The model only proposed illegal moves."
  | .ILLEGAL_MOVE_WRONG_PIECE => "The model tried to move a piece of the wrong color."
  | .MISSING_CHOICE_KEY => "The model didn\x27t return a valid response."
  | .MISSING_BREAKDOWN_KEY => "The model didn\x27t return a valid response."
  | .MISSING_ANALYSIS_KEY => "The model didn\x27t return a valid response."
  | .INVALID_UCI_FORMAT => "The model didn\x27t respected the imposed response format."

/-- Python exceptions the embedded code can raise. -/
inductive PyExc where
  | attributeError
  | typeError
  | unboundLocalError
  deriving DecidableEq

/-- UCI parsing of the Rules Oracle (`chess.Move.from_uci`), per the UCI
pattern the system itself documents in its retry prompts:
`[a-h][1-8][a-h][1-8][qrbn]?`.  A successful parse returns the move,
identified with its UCI string; a failed parse models the `ValueError` that
`extract_move_from_response` catches. -/
def from_uci (s : String) : Option String :=
  let fileOk := fun (c : Char) => 'a' ≤ c && c ≤ 'h'
  let rankOk := fun (c : Char) => '1' ≤ c && c ≤ '8'
  let promoOk := fun (c : Char) => c = 'q' || c = 'r' || c = 'b' || c = 'n'
  match s.toList with
  | [a, b, c, d] => if fileOk a && rankOk b && fileOk c && rankOk d then some s else none
  | [a, b, c, d, e] =>
      if fileOk a && rankOk b && fileOk c && rankOk d && promoOk e then some s else none
  | _ => none

/-- How `json.loads` sees one actor reply: either not decodable, or an object
of which we record exactly the three keys `match.py` inspects (`reasoning`,
`rationale`, `move`); a reply following the `analysis`/`breakdown`/`choice`
schema of the system prompt therefore has all three components `none`. -/
inductive ParsedJson where
  | notJson
  | obj (reasoning rationale move : Option String)
  deriving DecidableEq

/-- One non-`None` return value of the actor transport's `chat`: the reply
text together with its decoding, and the reported cost and latency. -/
structure ChatReply where
  text : String
  parsed : ParsedJson
  cost : ℚ
  latency : ℚ
  deriving DecidableEq

/-- Decoded move value: the `"resign"`/`"pass"` sentinels or a coordinate
move. -/
inductive MoveVal where
  | resignS
  | passS
  | coord (uci : String)
  deriving DecidableEq

/-- Success payload of `extract_move_from_response` (the dict with `move`,
optional `move_uci`, `rationale`, `reasoning`). -/
structure ExtractSuccess where
  move : MoveVal
  move_uci : Option String
  rationale : String
  reasoning : String
  deriving DecidableEq

/-- Return value of `extract_move_from_response`: the success dict or the
error dict with its reason and optionally the attempted move string. -/
inductive ExtractResult where
  | success (s : ExtractSuccess)
  | failure (error : RetryReason) (attempted : Option String)
  deriving DecidableEq

/-- Whitespace class of Python `str.strip()` as it matters for replies. -/
def isPySpace (c : Char) : Bool := c = ' ' || c = '\t' || c = '\n' || c = '\r'

/-- Python `str.strip()` (used as `parsed_response["move"].strip()`), written
out over the character list so that the kernel can evaluate it. -/
def pyStrip (s : String) : String :=
  ⟨((s.toList.dropWhile isPySpace).reverse.dropWhile isPySpace).reverse⟩

/-- Embedding of `ChessGame.extract_move_from_response`.  A missing
`reasoning`, `rationale` or `move` key makes the source evaluate
`RetryReason.MISSING_REASONING_KEY` (resp. `_RATIONALE_`, `_MOVE_`), members
that do not exist in `prompts.py`, so those paths raise `AttributeError`
instead of returning an error dict. -/
def extract_move_from_response (text : String) (parsed : ParsedJson) :
    Except PyExc ExtractResult :=
  if text = "" then .ok (.failure .EMPTY_RESPONSE none)
  else
    match parsed with
    | .notJson => .ok (.failure .INVALID_JSON none)
    | .obj rs rl mv =>
        match rs with
        | none => .error .attributeError
        | some reasoning =>
            match rl with
            | none => .error .attributeError
            | some rationale =>
                match mv with
                | none => .error .attributeError
                | some m =>
                    let move_str := pyStrip m
                    if move_str = "resign" then
                      .ok (.success ⟨.resignS, none, rationale, reasoning⟩)
                    else if move_str = "pass" then
                      .ok (.success ⟨.passS, none, rationale, reasoning⟩)
                    else
                      match from_uci move_str with
                      | some u => .ok (.success ⟨.coord u, some move_str, rationale, reasoning⟩)
                      | none => .ok (.failure .INVALID_UCI_FORMAT (some move_str))

/-- The in-check addendum of the illegal-move retry instruction. -/
def checkReminder : String :=
  " Your king is currently in check. You must make a move to resolve the check."

/-- The documented UCI pattern quoted by the retry instructions. -/
def uciPat : String := "^[a-h][1-8][a-h][1-8][qrbn]?$"

/-- Body shared by the two `INVALID_UCI_FORMAT` instructions after their
first sentence. -/
def uciFormatTail : String :=
  " It must match " ++ uciPat ++ ". UCI is from-square + to-square (+ optional promotion piece). Do NOT include \x27x\x27, \x27+\x27, \x27-\x27 or piece letters. For captures, just write the to-square.\n\nBad examples and corrections:\n- \x27d4xe5\x27 -> \x27d4e5\x27\n- \x27Nf3\x27 -> \x27g1f3\x27\n- \x27Nb8d7\x27 -> \x27b8d7\x27\n- \x27e2-e4\x27 -> \x27e2e4\x27\n\nValid examples:\n- \x27e2e4\x27, \x27d4e5\x27, \x27g1f3\x27, \x27c1g5\x27, \x27e7e8q\x27 (promotion).\n\nReturn ONLY the JSON object."

/-- The `INVALID_JSON` corrective instruction. -/
def invalidJsonMsg : String :=
  "Your output was not valid JSON or contained extra text. Return ONLY one JSON object that starts with \x27\x7b\x27 and ends with \x27\x7d\x27, with absolutely no text before or after it. The JSON must have keys in this exact order: \x27analysis\x27, \x27breakdown\x27, \x27choice\x27. Do not use code fences or text before or after the JSON.\n\nValid output example:\n\x7b\n  \"analysis\": \"Sorry for the invalid response before. I considered central control and king safety...\",\n  \"breakdown\": \"Develop and control the center while keeping the king safe.\",\n  \"choice\": \"e2e4\"\n\x7d\n"

/-- Embedding of `build_retry_message` from `prompts.py`.  The Python
function has no `return` for `EMPTY_RESPONSE` (that branch is commented
out), so it falls off the end and returns `None` — here `none`. -/
def build_retry_message (reason : RetryReason) (attempted : Option String)
    (is_in_check : Option Bool) : Option String :=
  if reason = .ILLEGAL_MOVE then
    let check_message := if is_in_check = some true then checkReminder else ""
    match attempted with
    | some att =>
        if att ≠ "" then
          some ("The move \x27" ++ att
            ++ "\x27 is illegal and cannot be played in the current position." ++ check_message
            ++ " Please analyze the board again and provide a legal move in UCI format. Return ONLY the JSON object.")
        else
          some ("Your previous move was illegal." ++ check_message
            ++ " Please choose a legal move and return it in the JSON format.")
    | none =>
        some ("Your previous move was illegal." ++ check_message
          ++ " Please choose a legal move and return it in the JSON format.")
  else if reason = .ILLEGAL_MOVE_WRONG_PIECE then
    match attempted with
    | some att =>
        if att ≠ "" then
          some ("The move \x27" ++ att
            ++ "\x27 is illegal because it moves a piece to your opponent.\n            You can only move your own pieces. Please analyze the board again and provide a legal move in UCI format.\n            Return ONLY the JSON object.")
        else
          some ("The move you selected is illegal because it moves a piece that belongs to your opponent. You can only move your own pieces. Please analyze the board again and provide a legal move in UCI format. Return ONLY the JSON object.")
    | none =>
        some ("The move you selected is illegal because it moves a piece that belongs to your opponent. You can only move your own pieces. Please analyze the board again and provide a legal move in UCI format. Return ONLY the JSON object.")
  else if reason = .INVALID_UCI_FORMAT then
    match attempted with
    | some att =>
        if att ≠ "" then
          some ("The move \x27" ++ att ++ "\x27 is not valid UCI." ++ uciFormatTail)
        else
          some ("The \x27choice\x27 value is not valid UCI." ++ uciFormatTail)
    | none => some ("The \x27choice\x27 value is not valid UCI." ++ uciFormatTail)
  else if reason = .INVALID_JSON then
    some invalidJsonMsg
  else if reason = .MISSING_CHOICE_KEY then
    some "Your JSON is missing the required \x27choice\x27 key. Return a JSON object with \x27analysis\x27, \x27breakdown\x27, and \x27choice\x27 keys."
  else if reason = .MISSING_BREAKDOWN_KEY then
    some "Your JSON is missing the required \x27breakdown\x27 key. Return a JSON object with \x27analysis\x27, \x27breakdown\x27, and \x27choice\x27 keys."
  else if reason = .MISSING_ANALYSIS_KEY then
    some "Your JSON is missing the required \x27analysis\x27 key. Return a JSON object with \x27analysis\x27, \x27breakdown\x27, and \x27choice\x27 keys."
  else
    none

/-- One transcript record (`{"role": ..., "content": ...}`). -/
structure Msg where
  role : String
  content : String
  deriving DecidableEq

/-- Success payload of `get_player_move`. -/
structure GPMSuccess where
  move : MoveVal
  rationale : String
  reasoning : String
  cost : ℚ
  latency : ℚ
  deriving DecidableEq

/-- Return value of `get_player_move`: the success dict or `{"error": reason}`. -/
inductive GPMResult where
  | success (s : GPMSuccess)
  | failure (error : RetryReason)
  deriving DecidableEq

/-- The answers of the external Rules Oracle (python-chess) for one position,
together with the rendering the orchestrator derives from it: per-move SAN
notation (`board.san`) and the rendered turn-context user prompt
(`build_user_prompt`). -/
structure BoardFacts where
  turnWhite : Bool
  fullmove_number : Nat
  fen : String
  legalMoves : List String
  is_stalemate : Bool
  is_check : Bool
  is_checkmate : Bool
  is_game_over : Bool
  is_game_over_claim : Bool
  result_claim : String
  can_claim_fifty_moves : Bool
  can_claim_threefold_repetition : Bool
  sanOf : String → String
  userPrompt : String

/-- A whole game of Rules-Oracle behaviour: the oracle's answers as a
function of the moves pushed so far. -/
def Oracle : Type := List String → BoardFacts

/-- The legality test of `get_player_move`: `move == "resign" or (move ==
"pass" and board.is_stalemate()) or move in board.legal_moves`. -/
def legalCheck (b : BoardFacts) (m : MoveVal) : Bool :=
  match m with
  | .resignS => true
  | .passS => b.is_stalemate
  | .coord u => b.legalMoves.contains u

/-- The retry loop of `get_player_move`.  Arguments: remaining attempts,
transcript, the `error_reason` local (unset before the first failure — the
impossible read after zero iterations is Python's `UnboundLocalError`), and
the count of actor calls made so far.  A `None` transport reply, or an
extraction failure whose reason has no retry message (`EMPTY_RESPONSE`),
makes the source concatenate a string with `None`: `TypeError`. -/
def gpmLoop (b : BoardFacts) (player : List Msg → Option ChatReply) :
    Nat → List Msg → Option RetryReason → Nat →
    Except PyExc GPMResult × List Msg × Nat
  | 0, msgs, lastErr, calls =>
      (match lastErr with
       | some e => .ok (.failure e)
       | none => .error .unboundLocalError, msgs, calls)
  | n + 1, msgs, _lastErr, calls =>
      match player msgs with
      | none => (.error .typeError, msgs, calls + 1)
      | some reply =>
          let msgs := msgs ++ [⟨"assistant", reply.text⟩]
          match extract_move_from_response reply.text reply.parsed with
          | .error e => (.error e, msgs, calls + 1)
          | .ok (.success s) =>
              if legalCheck b s.move then
                (.ok (.success ⟨s.move, s.rationale, s.reasoning, reply.cost, reply.latency⟩),
                  msgs, calls + 1)
              else
                match build_retry_message .ILLEGAL_MOVE s.move_uci none with
                | none => (.error .typeError, msgs, calls + 1)
                | some m =>
                    gpmLoop b player n (msgs ++ [⟨"user", b.userPrompt ++ "\n\n" ++ m⟩])
                      (some .ILLEGAL_MOVE) (calls + 1)
          | .ok (.failure e att) =>
              match build_retry_message e att none with
              | none => (.error .typeError, msgs, calls + 1)
              | some m =>
                  gpmLoop b player n (msgs ++ [⟨"user", b.userPrompt ++ "\n\n" ++ m⟩])
                    (some e) (calls + 1)

/-- Embedding of `ChessGame.get_player_move`: append the turn-context user
prompt, then attempt up to `1 + max_retries` times.  Besides the Python
return value it reports the transcript as the call leaves it and the number
of actor calls made. -/
def get_player_move (b : BoardFacts) (player : List Msg → Option ChatReply)
    (max_retries : Nat) (msgs : List Msg) :
    Except PyExc GPMResult × List Msg × Nat :=
  gpmLoop b player (1 + max_retries) (msgs ++ [⟨"user", b.userPrompt⟩]) none 0

/-- The `move` component of a move-log entry. -/
inductive LoggedMove where
  | played (uci san : String)
  | sentinel (s : String)
  deriving DecidableEq

/-- One entry of `moves_log`. -/
structure MoveLogEntry where
  playerName : String
  color : String
  move_number : Nat
  fen_before : String
  reasoning : String
  rationale : String
  cost : ℚ
  latency : ℚ
  move : LoggedMove
  deriving DecidableEq

/-- Mutable state of a `ChessGame`.  `resultH`/`terminationH` are the
`Result`/`Termination` PGN headers (absent keys = `none`); `moveStack` is
the board's move stack (the board itself is owned by the Rules Oracle);
`savedCount` counts `save_game` invocations — the persistence side
effect. -/
structure ChessGame where
  white_name : String
  black_name : String
  max_moves : Nat
  moveStack : List String
  is_over : Bool
  resultH : Option String
  terminationH : Option String
  white_messages : List Msg
  black_messages : List Msg
  moves_log : List MoveLogEntry
  white_time : ℚ
  black_time : ℚ
  white_cost : ℚ
  black_cost : ℚ
  savedCount : Nat
  deriving DecidableEq

/-- Embedding of `ChessGame.terminate_game`. -/
def terminate_game (g : ChessGame) (result termination_reason : String) : ChessGame :=
  { g with resultH := some result, terminationH := some termination_reason }

/-- Embedding of `ChessGame.resign`. -/
def resignGame (g : ChessGame) (turnWhite : Bool) (reason : String) : ChessGame :=
  if turnWhite then terminate_game g "0-1" ("White resigned (" ++ reason ++ ")")
  else terminate_game g "1-0" ("Black resigned (" ++ reason ++ ")")

/-- Embedding of `ChessGame.determine_game_result`, consulting the oracle
facts `b` for the current position.  Note the source guards on
`board.is_game_over()` with the default `claim_draw=False`, while the result
string is read with `claim_draw=True`. -/
def determine_game_result (b : BoardFacts) (g : ChessGame) : ChessGame :=
  if b.is_game_over then
    let g₁ := { g with resultH := some b.result_claim }
    if b.is_checkmate then { g₁ with terminationH := some "checkmate" }
    else if b.is_stalemate then { g₁ with terminationH := some "stalemate" }
    else if b.can_claim_fifty_moves then { g₁ with terminationH := some "50-move rule" }
    else if b.can_claim_threefold_repetition then
      { g₁ with terminationH := some "threefold repetition" }
    else { g₁ with terminationH := some "draw" }
  else
    { g with resultH := some "1/2-1/2", terminationH := some "exceeded moves limit" }

/-- Embedding of `ChessGame.save_game` (persistence of PGN + JSON to the
external store): recorded as one persistence effect. -/
def save_game (g : ChessGame) : ChessGame :=
  { g with savedCount := g.savedCount + 1 }

/-- The dictionary returned by one `play_next_move` call (minus `None`,
which is modelled by `Option`). -/
inductive MoveResultDict where
  | errorRes (message : String)
  | resignedRes
  | passRes (fen : String) (result : Option String) (rationale reasoning : String)
      (cost latency : ℚ)
  | successRes (move_san fen : String) (is_over : Bool) (result : Option String)
      (rationale reasoning : String) (cost latency : ℚ)
  deriving DecidableEq

/-- `move_result.get("is_over")`: only the pass and success dicts carry the
key. -/
def MoveResultDict.isOverGet : MoveResultDict → Option Bool
  | .passRes .. => some true
  | .successRes _ _ b .. => some b
  | _ => none

/-- The `"status"` value of the returned dict. -/
def MoveResultDict.status : MoveResultDict → String
  | .errorRes _ => "error"
  | .resignedRes => "resigned"
  | .passRes .. => "success"
  | .successRes .. => "success"

/-- Embedding of `ChessGame.play_next_move`.  The state is returned in all
cases, an exception from the negotiation keeps the transcript mutations made
before the raise. -/
def play_next_move (oracle : Oracle) (white black : List Msg → Option ChatReply)
    (g₀ : ChessGame) (max_retries : Nat) :
    Except PyExc (Option MoveResultDict) × ChessGame :=
  let b := oracle g₀.moveStack
  if g₀.is_over || b.is_game_over || decide (g₀.max_moves < b.fullmove_number) then
    let g := { g₀ with is_over := true }
    let g := if g.resultH = none then determine_game_result b g else g
    let g := save_game g
    (.ok none, g)
  else
    let isWhite := b.turnWhite
    let player := if isWhite then white else black
    let msgs₀ := if isWhite then g₀.white_messages else g₀.black_messages
    let gpm := get_player_move b player max_retries msgs₀
    let g := if isWhite then { g₀ with white_messages := gpm.2.1 }
             else { g₀ with black_messages := gpm.2.1 }
    match gpm.1 with
    | .error e => (.error e, g)
    | .ok (.failure err) =>
        let g := resignGame g b.turnWhite ("No valid move provided (" ++ err.value ++ ")")
        let g := { g with is_over := true }
        let g := save_game g
        (.ok (some (.errorRes "Player failed to move.")), g)
    | .ok (.success s) =>
        let entry : MoveLogEntry :=
          { playerName := if isWhite then g.white_name else g.black_name
            color := if isWhite then "White" else "Black"
            move_number := b.fullmove_number
            fen_before := b.fen
            reasoning := s.reasoning
            rationale := s.rationale
            cost := s.cost
            latency := s.latency
            move :=
              match s.move with
              | .coord u => .played u (b.sanOf u)
              | .resignS => .sentinel "resign"
              | .passS => .sentinel "pass" }
        let g := { g with moves_log := g.moves_log ++ [entry] }
        let g :=
          if isWhite then
            { g with white_time := g.white_time + s.latency, white_cost := g.white_cost + s.cost }
          else
            { g with black_time := g.black_time + s.latency, black_cost := g.black_cost + s.cost }
        match s.move with
        | .resignS =>
            let g := resignGame g b.turnWhite "Resigned"
            let g := { g with is_over := true }
            let g := save_game g
            (.ok (some .resignedRes), g)
        | .passS =>
            let g := { g with is_over := true }
            let g := determine_game_result b g
            let g := save_game g
            (.ok (some (.passRes b.fen g.resultH s.rationale s.reasoning s.cost s.latency)), g)
        | .coord u =>
            let san := b.sanOf u
            let g := { g with moveStack := g.moveStack ++ [u] }
            let b₂ := oracle g.moveStack
            let g :=
              if b₂.is_game_over_claim then
                save_game (determine_game_result b₂ { g with is_over := true })
              else g
            (.ok (some (.successRes san b₂.fen g.is_over g.resultH s.rationale s.reasoning
              s.cost s.latency)), g)

/-- State owned by the serving layer for one match: the game, the ratings
table, the record of calls forwarded to `ratings.apply_result`, and the
notify version counter. -/
structure AppState where
  game : ChessGame
  table : RatingsTable
  applyCalls : List ApplyArgs
  version : Nat
  deriving DecidableEq

/-- The response of the `play_move` request handler. -/
inductive PlayMoveResponse where
  | gameOver (result termination : Option String)
  | moveRes (r : Option MoveResultDict)
  | internalError
  deriving DecidableEq

/-- Embedding of the `play_move` handler of `app.py` for one registered
match: early return of the terminal summary when the game is already over;
otherwise one `play_next_move` step; when the returned dict is truthy and
carries a truthy `is_over`, the result is forwarded to the Ratings Engine
(recorded in `applyCalls`) provided the `Result` header is truthy.  An
exception from the orchestrator is caught and answered as a 500 error. -/
def play_move (oracle : Oracle) (expS : ℚ → ℚ → ℚ)
    (white black : List Msg → Option ChatReply) (s : AppState) :
    PlayMoveResponse × AppState :=
  if s.game.is_over then
    (.gameOver s.game.resultH s.game.terminationH, s)
  else
    let pn := play_next_move oracle white black s.game 2
    match pn.1 with
    | .error _ => (.internalError, { s with game := pn.2 })
    | .ok mr =>
        let g := pn.2
        let isOverFlag :=
          match mr with
          | some r => (r.isOverGet).getD false
          | none => false
        if isOverFlag then
          let total := g.moveStack.length
          let white_moves := (total + 1) / 2
          let black_moves := total / 2
          match g.resultH with
          | some result =>
              if result ≠ "" then
                let args : ApplyArgs :=
                  ⟨g.white_name, g.black_name, result, white_moves, black_moves,
                    g.white_time, g.black_time, g.white_cost, g.black_cost, g.terminationH⟩
                let ar := apply_result expS s.table args
                (.moveRes mr,
                  { game := g, table := ar.1, applyCalls := s.applyCalls ++ [args],
                    version := s.version + 2 })
              else (.moveRes mr, { s with game := g, version := s.version + 2 })
          | none => (.moveRes mr, { s with game := g, version := s.version + 2 })
        else
          (.moveRes mr, { s with game := g, version := s.version + 1 })

theorem build_retry_illegal_some (att : String) (chk : Option Bool) :
    build_retry_message .ILLEGAL_MOVE (some att) chk
      = some ("The move \x27" ++ att
          ++ "\x27 is illegal and cannot be played in the current position."
          ++ (if chk = some true then checkReminder else "")
          ++ " Please analyze the board again and provide a legal move in UCI format. Return ONLY the JSON object.")
    ∨ build_retry_message .ILLEGAL_MOVE (some att) chk
      = some ("Your previous move was illegal."
          ++ (if chk = some true then checkReminder else "")
          ++ " Please choose a legal move and return it in the JSON format.") := by
  unfold build_retry_message
  by_cases h : att ≠ "" <;> simp [h]

/-- One failed attempt of the retry loop on a well-formed but illegal
coordinate proposal: the actor is called once more, the reply and a
corrective instruction are appended, and the loop continues with reason
`ILLEGAL_MOVE`.  The instruction embeds the rejected value `m.trim` between
two fixed strings and carries no in-check reminder because the loop calls
`build_retry_message` without the `is_in_check` argument. -/
theorem gpmLoop_illegal_step (b : BoardFacts) (player : List Msg → Option ChatReply)
    (n : Nat) (msgs : List Msg) (lastErr : Option RetryReason) (calls : Nat)
    (reply : ChatReply) (rs rl m u : String)
    (hp : player msgs = some reply) (htext : reply.text ≠ "")
    (hparsed : reply.parsed = .obj (some rs) (some rl) (some m))
    (hresign : pyStrip m ≠ "resign") (hpass : pyStrip m ≠ "pass")
    (huci : from_uci (pyStrip m) = some u) (hleg : b.legalMoves.contains u = false) :
    gpmLoop b player (n + 1) msgs lastErr calls
      = gpmLoop b player n
          ((msgs ++ [⟨"assistant", reply.text⟩])
            ++ [⟨"user", b.userPrompt ++ "\n\n"
                  ++ ("The move \x27" ++ pyStrip m
                    ++ "\x27 is illegal and cannot be played in the current position."
                    ++ " Please analyze the board again and provide a legal move in UCI format. Return ONLY the JSON object.")⟩])
          (some .ILLEGAL_MOVE) (calls + 1) := by
  have hextract : extract_move_from_response reply.text reply.parsed
      = .ok (.success ⟨.coord u, some (pyStrip m), rl, rs⟩) := by
    unfold extract_move_from_response
    rw [if_neg htext, hparsed]
    dsimp only
    rw [if_neg hresign, if_neg hpass, huci]
  have hmtrim : pyStrip m ≠ "" := by
    intro he
    rw [he] at huci
    simp [from_uci] at huci
  have hretry : build_retry_message .ILLEGAL_MOVE (some (pyStrip m)) none
      = some ("The move \x27" ++ pyStrip m
          ++ "\x27 is illegal and cannot be played in the current position."
                    ++ " Please analyze the board again and provide a legal move in UCI format. Return ONLY the JSON object.") := by
    unfold build_retry_message
    simp [checkReminder, hmtrim]
  have hlc : legalCheck b (MoveVal.coord u) = false := hleg
  conv_lhs => rw [gpmLoop]
  simp only [hp, hextract, hlc, hretry, Bool.false_eq_true, if_false, ite_false]

/-- C6: against an actor whose every reply is well formed but proposes an
illegal coordinate move, negotiation with retry budget 2 makes exactly 3
actor calls and returns the failure reason `ILLEGAL_MOVE`. -/
theorem spec_c6_illegal_exhausts_budget (b : BoardFacts)
    (player : List Msg → Option ChatReply) (msgs₀ : List Msg)
    (h : ∀ msgs, ∃ reply rs rl m u,
      player msgs = some reply ∧ reply.text ≠ ""
      ∧ reply.parsed = .obj (some rs) (some rl) (some m)
      ∧ pyStrip m ≠ "resign" ∧ pyStrip m ≠ "pass"
      ∧ from_uci (pyStrip m) = some u ∧ b.legalMoves.contains u = false) :
    (get_player_move b player 2 msgs₀).1 = .ok (.failure .ILLEGAL_MOVE)
    ∧ (get_player_move b player 2 msgs₀).2.2 = 3 := by
  unfold get_player_move
  rw [show (1 + 2 : Nat) = 2 + 1 from rfl]
  obtain ⟨r₁, rs₁, rl₁, m₁, u₁, hp₁, ht₁, hj₁, hr₁, hs₁, hu₁, hl₁⟩ := h (msgs₀ ++ [⟨"user", b.userPrompt⟩])
  rw [gpmLoop_illegal_step b player 2 _ _ _ _ _ _ _ _ hp₁ ht₁ hj₁ hr₁ hs₁ hu₁ hl₁]
  rw [show (2 : Nat) = 1 + 1 from rfl]
  obtain ⟨r₂, rs₂, rl₂, m₂, u₂, hp₂, ht₂, hj₂, hr₂, hs₂, hu₂, hl₂⟩ := h _
  rw [gpmLoop_illegal_step b player 1 _ _ _ _ _ _ _ _ hp₂ ht₂ hj₂ hr₂ hs₂ hu₂ hl₂]
  rw [show (1 : Nat) = 0 + 1 from rfl]
  obtain ⟨r₃, rs₃, rl₃, m₃, u₃, hp₃, ht₃, hj₃, hr₃, hs₃, hu₃, hl₃⟩ := h _
  rw [gpmLoop_illegal_step b player 0 _ _ _ _ _ _ _ _ hp₃ ht₃ hj₃ hr₃ hs₃ hu₃ hl₃]
  exact ⟨rfl, rfl⟩

/-- A reusable oracle that answers every position the same way. -/
def oracleConst (b : BoardFacts) : Oracle := fun _ => b

/-- A reusable scripted actor that always gives the same reply. -/
def playerOf (r : ChatReply) : List Msg → Option ChatReply := fun _ => some r

/-- A generic non-terminal opening position of the Rules Oracle. -/
def boardBase : BoardFacts where
  turnWhite := true
  fullmove_number := 1
  fen := "rnbqkbnr/pppppppp/8/8/8/8/PPPPPPPP/RNBQKBNR w KQkq - 0 1"
  legalMoves := ["e2e4"]
  is_stalemate := false
  is_check := false
  is_checkmate := false
  is_game_over := false
  is_game_over_claim := false
  result_claim := "*"
  can_claim_fifty_moves := false
  can_claim_threefold_repetition := false
  sanOf := fun u => u
  userPrompt := "P"

/-- A freshly initialised game between players `"W"` and `"B"`. -/
def gameBase : ChessGame where
  white_name := "W"
  black_name := "B"
  max_moves := 200
  moveStack := []
  is_over := false
  resultH := none
  terminationH := none
  white_messages := [⟨"system", "S"⟩]
  black_messages := [⟨"system", "S"⟩]
  moves_log := []
  white_time := 0
  black_time := 0
  white_cost := 0
  black_cost := 0
  savedCount := 0

/-- A well-formed reply proposing the out-of-list coordinate move `d1d8`. -/
def replyIllegal : ChatReply := ⟨"I", .obj (some "cr") (some "rr") (some "d1d8"), 0, 0⟩

/-- Witness for C6: the scripted always-illegal actor against the base board
triggers exactly 3 calls and the `ILLEGAL_MOVE` failure. -/
theorem spec_c6_illegal_exhausts_budget_witness :
    (get_player_move boardBase (playerOf replyIllegal) 2 []).1
        = .ok (.failure .ILLEGAL_MOVE)
    ∧ (get_player_move boardBase (playerOf replyIllegal) 2 []).2.2 = 3 := by
  have hai : ∀ msgs, ∃ reply rs rl m u,
      playerOf replyIllegal msgs = some reply ∧ reply.text ≠ ""
      ∧ reply.parsed = .obj (some rs) (some rl) (some m)
      ∧ pyStrip m ≠ "resign" ∧ pyStrip m ≠ "pass"
      ∧ from_uci (pyStrip m) = some u ∧ boardBase.legalMoves.contains u = false := by
    intro msgs
    exact ⟨replyIllegal, "cr", "rr", "d1d8", "d1d8", rfl, by decide, rfl,
      by decide, by decide, by decide, by decide⟩
  exact spec_c6_illegal_exhausts_budget boardBase (playerOf replyIllegal) [] hai

/-- C2: once a match is terminal, the step handler returns the terminal
summary read from the headers and leaves the whole serving-layer state —
game, ratings table, forwarded-call record, persistence count — unchanged;
repeated invocations therefore return the same summary with no further side
effects. -/
theorem spec_c2_step_idempotent (oracle : Oracle) (expS : ℚ → ℚ → ℚ)
    (white black : List Msg → Option ChatReply) (s : AppState)
    (h : s.game.is_over = true) :
    play_move oracle expS white black s
      = (.gameOver s.game.resultH s.game.terminationH, s) := by
  unfold play_move
  rw [if_pos h]

/-- A concretely terminated game (White won by checkmate). -/
def gameDone : ChessGame :=
  { gameBase with is_over := true, resultH := some "1-0", terminationH := some "checkmate" }

/-- Serving-layer state holding the terminated game. -/
def c2State : AppState := ⟨gameDone, ⟨1200, []⟩, [], 5⟩

/-- Witness for C2 at a concrete terminal state. -/
theorem spec_c2_step_idempotent_witness :
    c2State.game.is_over = true
    ∧ play_move (oracleConst boardBase) (fun _ _ => (1 : ℚ) / 2)
        (playerOf replyIllegal) (playerOf replyIllegal) c2State
      = (.gameOver (some "1-0") (some "checkmate"), c2State) :=
  ⟨rfl, spec_c2_step_idempotent (oracleConst boardBase) (fun _ _ => (1 : ℚ) / 2)
    (playerOf replyIllegal) (playerOf replyIllegal) c2State rfl⟩

/-- C9: `apply_result` treats every result string other than `"1-0"` and
`"0-1"` (including the undetermined `"*"`) as a draw — once the guards pass
the run is identical to the run on `"1/2-1/2"`, both sides' draw counters
are incremented, win and loss counters are untouched, and the table is
persisted. -/
theorem spec_c9_other_results_are_draws (expS : ℚ → ℚ → ℚ) (t : RatingsTable) (a : ApplyArgs)
    (hterm : ¬ a.termination = some "No response from the model.")
    (hplies : ¬ a.white_moves + a.black_moves ≤ 1)
    (hne : a.white_id ≠ a.black_id)
    (h1 : a.result ≠ "1-0") (h2 : a.result ≠ "0-1") :
    apply_result expS t a = apply_result expS t { a with result := "1/2-1/2" }
    ∧ ((apply_result expS t a).1.get_stats a.white_id).draws
        = ((ensurePlayers t a.white_id a.black_id).get_stats a.white_id).draws + 1
    ∧ ((apply_result expS t a).1.get_stats a.black_id).draws
        = ((ensurePlayers t a.white_id a.black_id).get_stats a.black_id).draws + 1
    ∧ ((apply_result expS t a).1.get_stats a.white_id).wins
        = ((ensurePlayers t a.white_id a.black_id).get_stats a.white_id).wins
    ∧ ((apply_result expS t a).1.get_stats a.black_id).wins
        = ((ensurePlayers t a.white_id a.black_id).get_stats a.black_id).wins
    ∧ ((apply_result expS t a).1.get_stats a.white_id).losses
        = ((ensurePlayers t a.white_id a.black_id).get_stats a.white_id).losses
    ∧ ((apply_result expS t a).1.get_stats a.black_id).losses
        = ((ensurePlayers t a.white_id a.black_id).get_stats a.black_id).losses
    ∧ (apply_result expS t a).2 = true := by
  have hne' : a.black_id ≠ a.white_id := Ne.symm hne
  obtain ⟨⟨pw, hpw⟩, ⟨pb, hpb⟩⟩ := ensurePlayers_present t a.white_id a.black_id hne
  refine ⟨?_, ?_, ?_, ?_, ?_, ?_, ?_, ?_⟩
  · unfold apply_result
    simp only [if_neg hterm, if_neg hplies, h1, h2, String.reduceEq, ite_false, if_false]
  · unfold apply_result
    simp only [if_neg hterm, if_neg hplies, h1, h2, ite_false, if_false]
    simp only [get_stats_set]
    unfold RatingsTable.get_stats
    simp only [dictFind_tableUpdate_ne _ _ _ _ hne, dictFind_tableUpdate_ne _ _ _ _ hne',
      dictFind_tableUpdate_self, hpw, hpb, Option.map_some]
    simp [statsOf]
  · unfold apply_result
    simp only [if_neg hterm, if_neg hplies, h1, h2, ite_false, if_false]
    simp only [get_stats_set]
    unfold RatingsTable.get_stats
    simp only [dictFind_tableUpdate_ne _ _ _ _ hne, dictFind_tableUpdate_ne _ _ _ _ hne',
      dictFind_tableUpdate_self, hpw, hpb, Option.map_some]
    simp [statsOf]
  · unfold apply_result
    simp only [if_neg hterm, if_neg hplies, h1, h2, ite_false, if_false]
    simp only [get_stats_set]
    unfold RatingsTable.get_stats
    simp only [dictFind_tableUpdate_ne _ _ _ _ hne, dictFind_tableUpdate_ne _ _ _ _ hne',
      dictFind_tableUpdate_self, hpw, hpb, Option.map_some]
    simp [statsOf]
  · unfold apply_result
    simp only [if_neg hterm, if_neg hplies, h1, h2, ite_false, if_false]
    simp only [get_stats_set]
    unfold RatingsTable.get_stats
    simp only [dictFind_tableUpdate_ne _ _ _ _ hne, dictFind_tableUpdate_ne _ _ _ _ hne',
      dictFind_tableUpdate_self, hpw, hpb, Option.map_some]
    simp [statsOf]
  · unfold apply_result
    simp only [if_neg hterm, if_neg hplies, h1, h2, ite_false, if_false]
    simp only [get_stats_set]
    unfold RatingsTable.get_stats
    simp only [dictFind_tableUpdate_ne _ _ _ _ hne, dictFind_tableUpdate_ne _ _ _ _ hne',
      dictFind_tableUpdate_self, hpw, hpb, Option.map_some]
    simp [statsOf]
  · unfold apply_result
    simp only [if_neg hterm, if_neg hplies, h1, h2, ite_false, if_false]
    simp only [get_stats_set]
    unfold RatingsTable.get_stats
    simp only [dictFind_tableUpdate_ne _ _ _ _ hne, dictFind_tableUpdate_ne _ _ _ _ hne',
      dictFind_tableUpdate_self, hpw, hpb, Option.map_some]
    simp [statsOf]
  · unfold apply_result
    simp only [if_neg hterm, if_neg hplies, h1, h2, ite_false, if_false]

/-- Witness for C9 at the undetermined result string `"*"`. -/
theorem spec_c9_other_results_are_draws_witness :
    apply_result (fun _ _ => (1 : ℚ) / 2) ⟨1200, []⟩
        ⟨"A", "B", "*", 5, 5, 0, 0, 0, 0, some "checkmate"⟩
      = apply_result (fun _ _ => (1 : ℚ) / 2) ⟨1200, []⟩
          ⟨"A", "B", "1/2-1/2", 5, 5, 0, 0, 0, 0, some "checkmate"⟩
    ∧ ((apply_result (fun _ _ => (1 : ℚ) / 2) ⟨1200, []⟩
        ⟨"A", "B", "*", 5, 5, 0, 0, 0, 0, some "checkmate"⟩).1.get_stats "A").draws = 1 := by
  have h := spec_c9_other_results_are_draws (fun _ _ => (1 : ℚ) / 2) ⟨1200, []⟩
    ⟨"A", "B", "*", 5, 5, 0, 0, 0, 0, some "checkmate"⟩
    (by decide) (by decide) (by decide) (by decide) (by decide)
  refine ⟨h.1, ?_⟩
  rw [h.2.1]
  decide

/-- A well-formed reply whose decoded move is the `"resign"` sentinel. -/
def replyResign : ChatReply := ⟨"R", .obj (some "cr") (some "rr") (some "resign"), 0, 0⟩

/-- A mid-game position, four plies in, White to move. -/
def c1Board : BoardFacts := { boardBase with fullmove_number := 3 }

/-- The game state after four plies. -/
def c1Game : ChessGame := { gameBase with moveStack := ["e2e4", "e7e5", "g1f3", "b8c6"] }

/-- Serving-layer state for the mid-game match, no ratings calls yet. -/
def c1State : AppState := ⟨c1Game, ⟨1200, []⟩, [], 0⟩

/-- C1 evaluated at its failing input: when White plays the `"resign"`
sentinel, the step handler transitions the match into the terminal state
(result `0-1`, the game persisted exactly once) but forwards nothing to the
Ratings Engine — the `{"status": "resigned"}` dict carries no `is_over` key,
so `applyCalls` and the table stay empty, contradicting the claimed
persist-and-forward-exactly-once on every terminal path. -/
theorem spec_c1_resign_skips_rating_forward :
    (play_move (oracleConst c1Board) (fun _ _ => (1 : ℚ) / 2) (playerOf replyResign)
        (playerOf replyResign) c1State).1 = .moveRes (some .resignedRes)
    ∧ (play_move (oracleConst c1Board) (fun _ _ => (1 : ℚ) / 2) (playerOf replyResign)
        (playerOf replyResign) c1State).2.game.is_over = true
    ∧ (play_move (oracleConst c1Board) (fun _ _ => (1 : ℚ) / 2) (playerOf replyResign)
        (playerOf replyResign) c1State).2.game.resultH = some "0-1"
    ∧ (play_move (oracleConst c1Board) (fun _ _ => (1 : ℚ) / 2) (playerOf replyResign)
        (playerOf replyResign) c1State).2.game.terminationH
        = some "White resigned (Resigned)"
    ∧ (play_move (oracleConst c1Board) (fun _ _ => (1 : ℚ) / 2) (playerOf replyResign)
        (playerOf replyResign) c1State).2.game.savedCount = 1
    ∧ (play_move (oracleConst c1Board) (fun _ _ => (1 : ℚ) / 2) (playerOf replyResign)
        (playerOf replyResign) c1State).2.applyCalls = []
    ∧ (play_move (oracleConst c1Board) (fun _ _ => (1 : ℚ) / 2) (playerOf replyResign)
        (playerOf replyResign) c1State).2.table = ⟨1200, []⟩ := by
  refine ⟨?_, ?_, ?_, ?_, ?_, ?_, ?_⟩ <;> rfl

/-- A reply with `reasoning` and `rationale` but no `move` key. -/
def replyNoMove : ChatReply := ⟨"M", .obj (some "cr") (some "rr") none, 0, 0⟩

/-- A reply following the `analysis`/`breakdown`/`choice` schema the system
prompt demands: none of the keys `match.py` reads is present. -/
def replySchema : ChatReply := ⟨"S", .obj none none none, 0, 0⟩

/-- A reply whose completion content is the empty string. -/
def replyEmpty : ChatReply := ⟨"", .notJson, 0, 0⟩

/-- A reply that does not decode as JSON. -/
def replyBadJson : ChatReply := ⟨"I think e4!", .notJson, 0, 0⟩

/-- A well-formed reply whose move string is not UCI. -/
def replyBadUci : ChatReply := ⟨"U", .obj (some "cr") (some "rr") (some "Nf3"), 0, 0⟩

/-- The transport returning `None`. -/
def playerNone : List Msg → Option ChatReply := fun _ => none

/-- C4 evaluated at its failing inputs: a reply missing a required field
raises `AttributeError` (the `MISSING_*_KEY` members referenced by
`match.py` do not exist in `prompts.py`), and an empty reply raises
`TypeError` (`build_retry_message` returns `None` for `EMPTY_RESPONSE` and
is concatenated into the retry prompt) — both hard faults instead of the
claimed corrective-instruction-and-retry.  Undecodable (`INVALID_JSON`) and
malformed-format (`INVALID_UCI_FORMAT`) replies do retry as claimed. -/
theorem spec_c4_failure_modes :
    extract_move_from_response "M" (.obj (some "cr") (some "rr") none)
        = .error .attributeError
    ∧ extract_move_from_response "S" (.obj none none none) = .error .attributeError
    ∧ (get_player_move boardBase (playerOf replyNoMove) 2 []).1 = .error .attributeError
    ∧ (get_player_move boardBase (playerOf replyEmpty) 2 []).1 = .error .typeError
    ∧ (get_player_move boardBase playerNone 2 []).1 = .error .typeError
    ∧ build_retry_message .EMPTY_RESPONSE none none = none
    ∧ (get_player_move boardBase (playerOf replyBadJson) 2 []).1
        = .ok (.failure .INVALID_JSON)
    ∧ (get_player_move boardBase (playerOf replyBadJson) 2 []).2.2 = 3
    ∧ (get_player_move boardBase (playerOf replyBadUci) 2 []).1
        = .ok (.failure .INVALID_UCI_FORMAT)
    ∧ (get_player_move boardBase (playerOf replyBadUci) 2 []).2.2 = 3 := by
  refine ⟨?_, ?_, ?_, ?_, ?_, ?_, ?_, ?_, ?_, ?_⟩ <;> rfl

/-- The position before the claim-draw move. -/
def c7Before : BoardFacts := { boardBase with legalMoves := ["g1f3"] }

/-- The position after the move: game over only because the threefold
repetition is claimable (`is_game_over()` without claims is false). -/
def c7After : BoardFacts :=
  { boardBase with
      turnWhite := false
      is_game_over := false
      is_game_over_claim := true
      result_claim := "1/2-1/2"
      can_claim_threefold_repetition := true
      fen := "afterfen" }

/-- A game of oracle answers realising the claim-draw ending. -/
def oracle7 : Oracle := fun ms => if ms = [] then c7Before else c7After

/-- A well-formed reply proposing the legal move `g1f3`. -/
def replyKnight : ChatReply := ⟨"K", .obj (some "cr") (some "rr") (some "g1f3"), 0, 0⟩

/-- C7 evaluated at its failing input: after a legal move the Rules Oracle
reports game over (with claimable draws counted) through a threefold
repetition claim only; the first satisfied condition of the claimed priority
chain is the threefold claim, yet `determine_game_result` — guarding on
`is_game_over()` without claims — records termination `"exceeded moves
limit"` through its move-limit branch. -/
theorem spec_c7_claim_draw_mislabelled :
    (play_next_move oracle7 (playerOf replyKnight) (playerOf replyKnight)
        gameBase 2).2.is_over = true
    ∧ (play_next_move oracle7 (playerOf replyKnight) (playerOf replyKnight)
        gameBase 2).2.moveStack = ["g1f3"]
    ∧ (play_next_move oracle7 (playerOf replyKnight) (playerOf replyKnight)
        gameBase 2).2.resultH = some "1/2-1/2"
    ∧ (play_next_move oracle7 (playerOf replyKnight) (playerOf replyKnight)
        gameBase 2).2.terminationH = some "exceeded moves limit"
    ∧ (play_next_move oracle7 (playerOf replyKnight) (playerOf replyKnight)
        gameBase 2).2.savedCount = 1
    ∧ c7After.is_game_over_claim = true
    ∧ c7After.is_game_over = false
    ∧ c7After.is_checkmate = false
    ∧ c7After.is_stalemate = false
    ∧ c7After.can_claim_fifty_moves = false
    ∧ c7After.can_claim_threefold_repetition = true := by
  refine ⟨?_, ?_, ?_, ?_, ?_, ?_, ?_, ?_, ?_, ?_, ?_⟩ <;> rfl

/-- A position in which the side to move is in check. -/
def c8Board : BoardFacts := { boardBase with is_check := true, legalMoves := ["e1e2"] }

set_option maxRecDepth 100000 in
/-- Counterexample to C8 as stated: with the king in check, the corrective
instruction appended after the illegal proposal `d1d8` contains the rejected
value but no in-check reminder — the claim that the reminder is included
whenever the side is in check is false at this input. -/
theorem spec_c8_counterexample :
    c8Board.is_check = true
    ∧ (get_player_move c8Board (playerOf replyIllegal) 2 []).2.1.get? 2
        = some ⟨"user", "P\n\nThe move \x27d1d8\x27 is illegal and cannot be played in the current position. Please analyze the board again and provide a legal move in UCI format. Return ONLY the JSON object."⟩
    ∧ ¬ ("Your king is currently in check".toList
          <:+: ("P\n\nThe move \x27d1d8\x27 is illegal and cannot be played in the current position. Please analyze the board again and provide a legal move in UCI format. Return ONLY the JSON object.").toList) := by
  refine ⟨rfl, rfl, by decide⟩

/-- C8 as amended: whenever a well-formed coordinate proposal is rejected as
illegal, the corrective instruction appended for the retry embeds the
rejected value between two fixed sentences and never carries the in-check
reminder, because the loop invokes `build_retry_message` without the
`is_in_check` argument (which defaults to `None`); the reminder text exists
in `build_retry_message` and would be emitted if the flag were passed. -/
theorem spec_c8_amended_retry_message (b : BoardFacts)
    (player : List Msg → Option ChatReply) (n : Nat) (msgs : List Msg)
    (lastErr : Option RetryReason) (calls : Nat) (reply : ChatReply) (rs rl m u : String)
    (hp : player msgs = some reply) (htext : reply.text ≠ "")
    (hparsed : reply.parsed = .obj (some rs) (some rl) (some m))
    (hresign : pyStrip m ≠ "resign") (hpass : pyStrip m ≠ "pass")
    (huci : from_uci (pyStrip m) = some u) (hleg : b.legalMoves.contains u = false) :
    gpmLoop b player (n + 1) msgs lastErr calls
      = gpmLoop b player n
          ((msgs ++ [⟨"assistant", reply.text⟩])
            ++ [⟨"user", b.userPrompt ++ "\n\n"
                  ++ ("The move \x27" ++ pyStrip m
                    ++ "\x27 is illegal and cannot be played in the current position."
                    ++ " Please analyze the board again and provide a legal move in UCI format. Return ONLY the JSON object.")⟩])
          (some .ILLEGAL_MOVE) (calls + 1)
    ∧ build_retry_message .ILLEGAL_MOVE (some (pyStrip m)) none
        = some ("The move \x27" ++ pyStrip m
            ++ "\x27 is illegal and cannot be played in the current position."
            ++ " Please analyze the board again and provide a legal move in UCI format. Return ONLY the JSON object.")
    ∧ build_retry_message .ILLEGAL_MOVE (some (pyStrip m)) (some true)
        = some ("The move \x27" ++ pyStrip m
            ++ "\x27 is illegal and cannot be played in the current position."
            ++ checkReminder
            ++ " Please analyze the board again and provide a legal move in UCI format. Return ONLY the JSON object.") := by
  have hmtrim : pyStrip m ≠ "" := by
    intro he
    rw [he] at huci
    simp [from_uci] at huci
  refine ⟨gpmLoop_illegal_step b player n msgs lastErr calls reply rs rl m u
    hp htext hparsed hresign hpass huci hleg, ?_, ?_⟩
  · unfold build_retry_message
    simp [checkReminder, hmtrim]
  · unfold build_retry_message
    simp [checkReminder, hmtrim]

/-- Witness for the amended C8 at a concrete in-check position and the
rejected proposal `d1d8`. -/
theorem spec_c8_amended_retry_message_witness :
    gpmLoop c8Board (playerOf replyIllegal) 3 [] none 0
      = gpmLoop c8Board (playerOf replyIllegal) 2
          (([] ++ [⟨"assistant", "I"⟩])
            ++ [⟨"user", c8Board.userPrompt ++ "\n\n"
                  ++ ("The move \x27" ++ pyStrip "d1d8"
                    ++ "\x27 is illegal and cannot be played in the current position."
                    ++ " Please analyze the board again and provide a legal move in UCI format. Return ONLY the JSON object.")⟩])
          (some .ILLEGAL_MOVE) 1
    ∧ build_retry_message .ILLEGAL_MOVE (some (pyStrip "d1d8")) none
        = some ("The move \x27" ++ pyStrip "d1d8"
            ++ "\x27 is illegal and cannot be played in the current position."
            ++ " Please analyze the board again and provide a legal move in UCI format. Return ONLY the JSON object.")
    ∧ build_retry_message .ILLEGAL_MOVE (some (pyStrip "d1d8")) (some true)
        = some ("The move \x27" ++ pyStrip "d1d8"
            ++ "\x27 is illegal and cannot be played in the current position."
            ++ checkReminder
            ++ " Please analyze the board again and provide a legal move in UCI format. Return ONLY the JSON object.") :=
  spec_c8_amended_retry_message c8Board (playerOf replyIllegal) 2 [] none 0
    replyIllegal "cr" "rr" "d1d8" "d1d8" rfl (by decide) rfl (by decide) (by decide)
    (by decide) (by decide)

/-- Witness for C10 on a concrete one-entry table and an absent identity. -/
theorem spec_c10_reads_pure_witness :
    dictFind (RatingsTable.mk 1200 [("m/x", freshPlayerData 1300)]).ratings "m/y" = none
    ∧ (RatingsTable.mk 1200 [("m/x", freshPlayerData 1300)]).getS "m/y"
        = (1200, RatingsTable.mk 1200 [("m/x", freshPlayerData 1300)])
    ∧ (RatingsTable.mk 1200 [("m/x", freshPlayerData 1300)]).get_statsS "m/y"
        = (⟨0, 0, 0, 0, 0, 0, 0⟩, RatingsTable.mk 1200 [("m/x", freshPlayerData 1300)]) :=
  ⟨by decide, (spec_c10_reads_pure _ _ (by decide) rfl).1,
    (spec_c10_reads_pure _ _ (by decide) rfl).2⟩

end Arena
